import Mathlib

/-!
# User controller of the Acquisitions API

A shallow embedding of `src/controllers/users.controller.js`: the four request
handlers `fetchAllUsers`, `getUserById`, `updateUser` and `deleteUser`.

Each handler is a function from its collaborators (validation schemas, the
validation-error formatter, the user service) and a request to the trace of
effects it performs: log lines, service calls, JSON responses and forwards to
the error channel `next`.  The collaborators live in modules that are not part
of the sources at hand (`#validations/users.validation.js`, `#utils/format.js`,
`#services/users.services.js`), so they are parameters of the embedding.

What the embedding takes for granted:
* `safeParse`, `formatValidationError`, the logger and the methods of `res` do
  not throw, and the data of a successful parse is an object; the only
  exceptions a `try` block sees are rejections of the service;
* a value thrown by the service is one whose `message` can be read;
* a response that sets no status goes out with status 200;
* the outcome of a service call depends on its arguments only, which is all a
  handler can observe since it makes at most one call.

The handlers are embedded for arbitrary schemas.  The two results on the `role`
property of an update payload are stated for the schemas that satisfy
`Env.validatedRoleIsTruthy`, which is what the specification says of roles.
-/

namespace Acquisitions

/-! ## JavaScript values -/

/-- JavaScript values the controller can tell apart: the primitives, with
numbers restricted to integers and `NaN`, and heap objects known only by their
address (the controller compares them by identity and never looks inside). -/
inductive JSVal where
  | undefined
  | null
  | bool (b : Bool)
  | num (n : Int)
  | nan
  | str (s : String)
  | ref (addr : Nat)
  deriving DecidableEq, Repr

namespace JSVal

/-- JavaScript truthiness (`ToBoolean`), as used by `!x` and `x && y`. -/
def truthy : JSVal → Bool
  | undefined => false
  | null => false
  | bool b => b
  | num n => n != 0
  | nan => false
  | str s => s != ""
  | ref _ => true

/-- JavaScript strict equality `===`: no coercion, `NaN` differs from itself,
objects are equal when they are the same object. -/
def strictEq : JSVal → JSVal → Bool
  | undefined, undefined => true
  | null, null => true
  | bool a, bool b => a == b
  | num a, num b => a == b
  | str a, str b => a == b
  | ref a, ref b => a == b
  | _, _ => false

/-- JavaScript strict inequality `!==`. -/
def strictNe (a b : JSVal) : Bool := !(strictEq a b)

end JSVal

/-- A plain object whose properties the controller reads: the parsed data of a
schema, seen as its list of own properties. -/
abbrev JSObj := List (String × JSVal)

/-- Property read `o.k`: the value of the property, `undefined` when the object
has no such property. -/
def getProp (o : JSObj) (k : String) : JSVal :=
  (List.lookup k o).getD JSVal.undefined

/-- The object has an own property `k` (whatever its value). -/
def hasProp (o : JSObj) (k : String) : Bool :=
  (List.lookup k o).isSome

/-- The authenticated caller `req.user`, reduced to the two properties the
controller reads off it. -/
structure Principal where
  id : JSVal
  role : JSVal
  deriving DecidableEq, Repr

/-- A value thrown by a service and caught by a handler: what reading its
`message` property gives (`undefined` when it has none), and the identity of
the thrown object. -/
structure JSError where
  message : JSVal
  addr : Nat
  deriving DecidableEq, Repr

/-- The part of an Express request the controller uses.  `params` and `body`
are handed unread to the schemas, so their types are parameters; `user` is
`none` when `req.user` is falsy, and otherwise carries `req.user.id` and
`req.user.role`. -/
structure Request (ρ β : Type) where
  params : ρ
  body : β
  user : Option Principal

/-! ## Effects -/

/-- A property value of a response body: a JavaScript value or an array. -/
inductive Field where
  | val (v : JSVal)
  | list (xs : List JSVal)
  deriving DecidableEq, Repr

/-- A response body: the object literal passed to `res.json`. -/
abbrev Body := List (String × Field)

/-- A call of one of the four functions of the user service. -/
inductive ServiceCall where
  | getAllUsers
  | getUserById (id : JSVal)
  | updateUser (id : JSVal) (updates : JSObj)
  | deleteUser (id : JSVal)
  deriving DecidableEq, Repr

/-- The effects of a handler, in the order they happen.  `logInfo text value`
is `logger.info` of a template literal: its literal text and the value it
interpolates after that text, if any.  `respond s b` is `res.status(s).json(b)`,
and `res.json(b)` alone is `respond 200 b` (the status of a fresh Express
response); `next e` is `next(e)`. -/
inductive Event where
  | logInfo (text : String) (value : Option JSVal)
  | logError (label : Option String) (e : JSError)
  | call (c : ServiceCall)
  | respond (status : Nat) (body : Body)
  | next (e : JSError)
  deriving DecidableEq, Repr

/-- The collaborators imported by the controller.  A schema is its `safeParse`:
`Except.error err` for `{ success: false, error: err }` and `Except.ok data` for
`{ success: true, data }`.  A service function is the outcome of awaiting it:
`Except.error e` when the promise rejects with `e`. -/
structure Env (ρ β : Type) where
  userIdSchema : ρ → Except JSVal JSObj
  updateUserSchema : β → Except JSVal JSObj
  formatValidationError : JSVal → JSVal
  getAllUsers : Unit → Except JSError (List JSVal)
  getUserByIdService : JSVal → Except JSError JSVal
  updateUserService : JSVal → JSObj → Except JSError JSVal
  deleteUserService : JSVal → Except JSError Unit

/-- What a `try` block did: its effects, and the exception that left it. -/
structure TryResult where
  trace : List Event
  thrown : Option JSError

variable {ρ β : Type}

/-! ## The handlers -/

/-- The `try` block of `fetchAllUsers`. -/
def fetchAllUsersTry (env : Env ρ β) (_req : Request ρ β) : TryResult :=
  match env.getAllUsers () with
  | .error e => ⟨[.logInfo "Getting users..." none, .call .getAllUsers], some e⟩
  | .ok allUsers =>
    ⟨[.logInfo "Getting users..." none, .call .getAllUsers,
      .respond 200 [("message", .val (.str "Successfully retrieved usres")),
                    ("users", .list allUsers),
                    ("count", .val (.num allUsers.length))]], none⟩

/-- Handler `fetchAllUsers`. -/
def fetchAllUsers (env : Env ρ β) (req : Request ρ β) : List Event :=
  let r := fetchAllUsersTry env req
  match r.thrown with
  | none => r.trace
  | some e => r.trace ++ [.logError none e, .next e]

/-- The `try` block of `getUserById`. -/
def getUserByIdTry (env : Env ρ β) (req : Request ρ β) : TryResult :=
  match env.userIdSchema req.params with
  | .error err =>
    ⟨[.respond 400 [("error", .val (.str "Validation Failed")),
                    ("details", .val (env.formatValidationError err))]], none⟩
  | .ok data =>
    let id := getProp data "id"
    match env.getUserByIdService id with
    | .error e =>
      ⟨[.logInfo "Getting user with ID: " (some id), .call (.getUserById id)], some e⟩
    | .ok user =>
      ⟨[.logInfo "Getting user with ID: " (some id), .call (.getUserById id),
        .respond 200 [("message", .val (.str "Successfully retrieved user")),
                      ("user", .val user)]], none⟩

/-- Handler `getUserById`. -/
def getUserById (env : Env ρ β) (req : Request ρ β) : List Event :=
  let r := getUserByIdTry env req
  match r.thrown with
  | none => r.trace
  | some e =>
    r.trace ++ (.logError (some "Error fetching user by ID") e ::
      if JSVal.strictEq e.message (.str "User not found") then
        [.respond 404 [("error", .val (.str "User not found"))]]
      else [.next e])

/-- The `try` block of `updateUser`. -/
def updateUserTry (env : Env ρ β) (req : Request ρ β) : TryResult :=
  match env.userIdSchema req.params with
  | .error err =>
    ⟨[.respond 400 [("error", .val (.str "Validation Failed")),
                    ("details", .val (env.formatValidationError err))]], none⟩
  | .ok idData =>
    let id := getProp idData "id"
    match env.updateUserSchema req.body with
    | .error err =>
      ⟨[.respond 400 [("error", .val (.str "Validation Failed")),
                      ("details", .val (env.formatValidationError err))]], none⟩
    | .ok updates =>
      match req.user with
      | none =>
        ⟨[.respond 401 [("error", .val (.str "Unauthorized")),
                        ("message", .val (.str "Authentication required"))]], none⟩
      | some user =>
        if JSVal.strictNe user.id id && JSVal.strictNe user.role (.str "admin") then
          ⟨[.respond 403 [("error", .val (.str "Forbidden")),
                          ("message", .val (.str "You can only update your own information"))]],
            none⟩
        else if (getProp updates "role").truthy && JSVal.strictNe user.role (.str "admin") then
          ⟨[.respond 403 [("error", .val (.str "Forbidden")),
                          ("message", .val (.str "Only admins can change user roles"))]], none⟩
        else
          match env.updateUserService id updates with
          | .error e =>
            ⟨[.logInfo "Updating user with ID: " (some id), .call (.updateUser id updates)],
              some e⟩
          | .ok updatedUser =>
            ⟨[.logInfo "Updating user with ID: " (some id), .call (.updateUser id updates),
              .respond 200 [("message", .val (.str "User updated successfully")),
                            ("user", .val updatedUser)]], none⟩

/-- Handler `updateUser`. -/
def updateUser (env : Env ρ β) (req : Request ρ β) : List Event :=
  let r := updateUserTry env req
  match r.thrown with
  | none => r.trace
  | some e =>
    r.trace ++ (.logError (some "Error updating user") e ::
      if JSVal.strictEq e.message (.str "User not found") then
        [.respond 404 [("error", .val (.str "User not found"))]]
      else [.next e])

/-- The `try` block of `deleteUser`. -/
def deleteUserTry (env : Env ρ β) (req : Request ρ β) : TryResult :=
  match env.userIdSchema req.params with
  | .error err =>
    ⟨[.respond 400 [("error", .val (.str "Validation Failed")),
                    ("details", .val (env.formatValidationError err))]], none⟩
  | .ok data =>
    let id := getProp data "id"
    match req.user with
    | none =>
      ⟨[.respond 401 [("error", .val (.str "Unauthorized")),
                      ("message", .val (.str "Authentication required"))]], none⟩
    | some user =>
      if JSVal.strictNe user.id id && JSVal.strictNe user.role (.str "admin") then
        ⟨[.respond 403 [("error", .val (.str "Forbidden")),
                        ("message", .val (.str "You can only delete your own account"))]], none⟩
      else
        match env.deleteUserService id with
        | .error e =>
          ⟨[.logInfo "Deleting user with ID: " (some id), .call (.deleteUser id)], some e⟩
        | .ok _ =>
          ⟨[.logInfo "Deleting user with ID: " (some id), .call (.deleteUser id),
            .respond 200 [("message", .val (.str "User deleted successfully"))]], none⟩

/-- Handler `deleteUser`. -/
def deleteUser (env : Env ρ β) (req : Request ρ β) : List Event :=
  let r := deleteUserTry env req
  match r.thrown with
  | none => r.trace
  | some e =>
    r.trace ++ (.logError (some "Error deleting user") e ::
      if JSVal.strictEq e.message (.str "User not found") then
        [.respond 404 [("error", .val (.str "User not found"))]]
      else [.next e])

/-! ## Observations on traces -/

/-- The event is a call of the user service. -/
def Event.isCall : Event → Bool
  | .call _ => true
  | _ => false

/-- The event ends the request: a JSON response or a forward to `next`. -/
def Event.isOutcome : Event → Bool
  | .respond _ _ => true
  | .next _ => true
  | _ => false

/-- The service calls of a trace, in order. -/
def calls (t : List Event) : List Event := t.filter Event.isCall

/-- The outcomes of a trace, in order. -/
def outcomes (t : List Event) : List Event := t.filter Event.isOutcome

/-- The result of awaiting the service call `c`: the error it rejects with. -/
def Env.failure (env : Env ρ β) : ServiceCall → Option JSError
  | .getAllUsers => match env.getAllUsers () with
      | .error e => some e
      | .ok _ => none
  | .getUserById id => match env.getUserByIdService id with
      | .error e => some e
      | .ok _ => none
  | .updateUser id updates => match env.updateUserService id updates with
      | .error e => some e
      | .ok _ => none
  | .deleteUser id => match env.deleteUserService id with
      | .error e => some e
      | .ok _ => none

/-- The four handlers exported by the controller. -/
inductive Handler where
  | fetchAllUsers
  | getUserById
  | updateUser
  | deleteUser
  deriving DecidableEq, Repr

/-- The trace of a handler. -/
def Handler.run (h : Handler) (env : Env ρ β) (req : Request ρ β) : List Event :=
  match h with
  | .fetchAllUsers => Acquisitions.fetchAllUsers env req
  | .getUserById => Acquisitions.getUserById env req
  | .updateUser => Acquisitions.updateUser env req
  | .deleteUser => Acquisitions.deleteUser env req

/-! ## The update schema, as far as the specification describes it -/

/-- Modelled from the spec: the update schema of
`#validations/users.validation.js`, which is not among the sources.  The spec
describes the payload as validated against an allow-list schema that may
optionally include `role`, and a role as `admin` or a non-admin role.  A role
name is a non-empty string, so a payload that the schema has validated never
holds a falsy value (`undefined`, `null`, `false`, `0`, `NaN`, the empty string)
under a `role` property it has. -/
def Env.validatedRoleIsTruthy (env : Env ρ β) : Prop :=
  ∀ body updates, env.updateUserSchema body = .ok updates →
    hasProp updates "role" = true → (getProp updates "role").truthy = true

/-! ## Response bodies named by the specification -/

/-- Error body of a validation failure: `error` and the formatted `details`. -/
def validationFailure (details : JSVal) : Body :=
  [("error", .val (.str "Validation Failed")), ("details", .val details)]

/-- Error body of an authentication or authorization failure. -/
def authFailure (error message : String) : Body :=
  [("error", .val (.str error)), ("message", .val (.str message))]

/-- Error body of a lookup that found no user. -/
def notFoundBody : Body := [("error", .val (.str "User not found"))]

/-! ## Sample collaborators and requests -/

namespace Sample

/-- An id schema over route parameters: `id` must be a non-empty string of
decimal digits; the parsed data keeps it. -/
def idSchema (params : JSObj) : Except JSVal JSObj :=
  match getProp params "id" with
  | .str s =>
    if s.data.all Char.isDigit && s != "" then .ok [("id", .str s)]
    else .error (.str "ID must be a valid number")
  | _ => .error (.str "ID is required")

/-- An allow-list update schema over flat bodies: at least one field, only the
fields `name`, `email` and `role`, and a `role` that is `user` or `admin`. -/
def updateSchema (body : JSObj) : Except JSVal JSObj :=
  if body.all (fun kv => kv.1 == "name" || kv.1 == "email" || kv.1 == "role") && !body.isEmpty
  then
    if body.all (fun kv => kv.1 != "role" || kv.2 == .str "user" || kv.2 == .str "admin")
    then .ok body
    else .error (.str "Role must be user or admin")
  else .error (.str "Unknown or missing fields")

/-- The error of a service that knows no user `999`. -/
def notFound : JSError := ⟨.str "User not found", 1⟩

/-- The error of a service whose database is down. -/
def dbDown : JSError := ⟨.str "connection refused", 2⟩

/-- A service over a store in which every user but `999` exists. -/
def env : Env JSObj JSObj where
  userIdSchema := idSchema
  updateUserSchema := updateSchema
  formatValidationError := fun err => err
  getAllUsers := fun _ => .ok [.ref 10, .ref 11, .ref 12]
  getUserByIdService := fun id => if id = .str "999" then .error notFound else .ok (.ref 10)
  updateUserService := fun id _ => if id = .str "999" then .error notFound else .ok (.ref 20)
  deleteUserService := fun id => if id = .str "999" then .error notFound else .ok ()

/-- The same schemas over a store that cannot be reached. -/
def downEnv : Env JSObj JSObj where
  userIdSchema := idSchema
  updateUserSchema := updateSchema
  formatValidationError := fun err => err
  getAllUsers := fun _ => .error dbDown
  getUserByIdService := fun _ => .error dbDown
  updateUserService := fun _ _ => .error dbDown
  deleteUserService := fun _ => .error dbDown

/-- A request on `/:id` with the given id text, body and principal. -/
def request (id : String) (body : JSObj) (user : Option Principal) : Request JSObj JSObj :=
  ⟨[("id", .str id)], body, user⟩

end Sample

/-! ## Strict equality -/

theorem strictEq_str_iff (v : JSVal) (s : String) :
    JSVal.strictEq v (.str s) = true ↔ v = .str s := by
  cases v <;> simp [JSVal.strictEq]

/-- The ownership gate lets a principal through exactly when it owns the target
or is an admin. -/
theorem ownership_gate_iff (p : Principal) (id : JSVal) :
    (JSVal.strictNe p.id id && JSVal.strictNe p.role (.str "admin")) = false ↔
      (JSVal.strictEq p.id id = true ∨ JSVal.strictEq p.role (.str "admin") = true) := by
  simp only [JSVal.strictNe]
  cases JSVal.strictEq p.id id <;> cases JSVal.strictEq p.role (.str "admin") <;> simp

/-! ## The trace of each handler, case by case -/

section Traces

variable (env : Env ρ β) (req : Request ρ β)

theorem fetchAllUsers_ok {users : List JSVal} (h : env.getAllUsers () = .ok users) :
    fetchAllUsers env req =
      [.logInfo "Getting users..." none, .call .getAllUsers,
       .respond 200 [("message", .val (.str "Successfully retrieved usres")),
                     ("users", .list users), ("count", .val (.num users.length))]] := by
  simp [fetchAllUsers, fetchAllUsersTry, h]

theorem fetchAllUsers_error {e : JSError} (h : env.getAllUsers () = .error e) :
    fetchAllUsers env req =
      [.logInfo "Getting users..." none, .call .getAllUsers, .logError none e, .next e] := by
  simp [fetchAllUsers, fetchAllUsersTry, h]

theorem getUserById_bad_id {err : JSVal} (h : env.userIdSchema req.params = .error err) :
    getUserById env req = [.respond 400 (validationFailure (env.formatValidationError err))] := by
  simp [getUserById, getUserByIdTry, h, validationFailure]

theorem getUserById_ok {data : JSObj} {user : JSVal}
    (h : env.userIdSchema req.params = .ok data)
    (hs : env.getUserByIdService (getProp data "id") = .ok user) :
    getUserById env req =
      [.logInfo "Getting user with ID: " (some (getProp data "id")),
       .call (.getUserById (getProp data "id")),
       .respond 200 [("message", .val (.str "Successfully retrieved user")),
                     ("user", .val user)]] := by
  simp [getUserById, getUserByIdTry, h, hs]

theorem getUserById_error {data : JSObj} {e : JSError}
    (h : env.userIdSchema req.params = .ok data)
    (hs : env.getUserByIdService (getProp data "id") = .error e) :
    getUserById env req =
      [.logInfo "Getting user with ID: " (some (getProp data "id")),
       .call (.getUserById (getProp data "id")),
       .logError (some "Error fetching user by ID") e,
       if e.message = .str "User not found" then .respond 404 notFoundBody else .next e] := by
  by_cases hm : e.message = .str "User not found"
  · simp [getUserById, getUserByIdTry, h, hs, hm, JSVal.strictEq, notFoundBody]
  · have hm2 : JSVal.strictEq e.message (.str "User not found") = false := by
      rw [← Bool.not_eq_true, strictEq_str_iff]; exact hm
    simp [getUserById, getUserByIdTry, h, hs, hm, hm2]

theorem updateUser_bad_id {err : JSVal} (h : env.userIdSchema req.params = .error err) :
    updateUser env req = [.respond 400 (validationFailure (env.formatValidationError err))] := by
  simp [updateUser, updateUserTry, h, validationFailure]

theorem updateUser_bad_body {idData : JSObj} {err : JSVal}
    (h : env.userIdSchema req.params = .ok idData)
    (hb : env.updateUserSchema req.body = .error err) :
    updateUser env req = [.respond 400 (validationFailure (env.formatValidationError err))] := by
  simp [updateUser, updateUserTry, h, hb, validationFailure]

theorem updateUser_no_principal {idData updates : JSObj}
    (h : env.userIdSchema req.params = .ok idData)
    (hb : env.updateUserSchema req.body = .ok updates) (hu : req.user = none) :
    updateUser env req = [.respond 401 (authFailure "Unauthorized" "Authentication required")] := by
  simp [updateUser, updateUserTry, h, hb, hu, authFailure]

theorem updateUser_not_owner {idData updates : JSObj} {p : Principal}
    (h : env.userIdSchema req.params = .ok idData)
    (hb : env.updateUserSchema req.body = .ok updates) (hu : req.user = some p)
    (hown : (JSVal.strictNe p.id (getProp idData "id") &&
      JSVal.strictNe p.role (.str "admin")) = true) :
    updateUser env req =
      [.respond 403 (authFailure "Forbidden" "You can only update your own information")] := by
  simp [updateUser, updateUserTry, h, hb, hu, hown, authFailure]

theorem updateUser_role_denied {idData updates : JSObj} {p : Principal}
    (h : env.userIdSchema req.params = .ok idData)
    (hb : env.updateUserSchema req.body = .ok updates) (hu : req.user = some p)
    (hown : (JSVal.strictNe p.id (getProp idData "id") &&
      JSVal.strictNe p.role (.str "admin")) = false)
    (hrole : ((getProp updates "role").truthy && JSVal.strictNe p.role (.str "admin")) = true) :
    updateUser env req =
      [.respond 403 (authFailure "Forbidden" "Only admins can change user roles")] := by
  simp [updateUser, updateUserTry, h, hb, hu, hown, hrole, authFailure]

theorem updateUser_ok {idData updates : JSObj} {p : Principal} {u : JSVal}
    (h : env.userIdSchema req.params = .ok idData)
    (hb : env.updateUserSchema req.body = .ok updates) (hu : req.user = some p)
    (hown : (JSVal.strictNe p.id (getProp idData "id") &&
      JSVal.strictNe p.role (.str "admin")) = false)
    (hrole : ((getProp updates "role").truthy && JSVal.strictNe p.role (.str "admin")) = false)
    (hs : env.updateUserService (getProp idData "id") updates = .ok u) :
    updateUser env req =
      [.logInfo "Updating user with ID: " (some (getProp idData "id")),
       .call (.updateUser (getProp idData "id") updates),
       .respond 200 [("message", .val (.str "User updated successfully")),
                     ("user", .val u)]] := by
  simp [updateUser, updateUserTry, h, hb, hu, hown, hrole, hs]

theorem updateUser_error {idData updates : JSObj} {p : Principal} {e : JSError}
    (h : env.userIdSchema req.params = .ok idData)
    (hb : env.updateUserSchema req.body = .ok updates) (hu : req.user = some p)
    (hown : (JSVal.strictNe p.id (getProp idData "id") &&
      JSVal.strictNe p.role (.str "admin")) = false)
    (hrole : ((getProp updates "role").truthy && JSVal.strictNe p.role (.str "admin")) = false)
    (hs : env.updateUserService (getProp idData "id") updates = .error e) :
    updateUser env req =
      [.logInfo "Updating user with ID: " (some (getProp idData "id")),
       .call (.updateUser (getProp idData "id") updates),
       .logError (some "Error updating user") e,
       if e.message = .str "User not found" then .respond 404 notFoundBody else .next e] := by
  by_cases hm : e.message = .str "User not found"
  · simp [updateUser, updateUserTry, h, hb, hu, hown, hrole, hs, hm, JSVal.strictEq, notFoundBody]
  · have hm2 : JSVal.strictEq e.message (.str "User not found") = false := by
      rw [← Bool.not_eq_true, strictEq_str_iff]; exact hm
    simp [updateUser, updateUserTry, h, hb, hu, hown, hrole, hs, hm, hm2]

theorem deleteUser_bad_id {err : JSVal} (h : env.userIdSchema req.params = .error err) :
    deleteUser env req = [.respond 400 (validationFailure (env.formatValidationError err))] := by
  simp [deleteUser, deleteUserTry, h, validationFailure]

theorem deleteUser_no_principal {data : JSObj}
    (h : env.userIdSchema req.params = .ok data) (hu : req.user = none) :
    deleteUser env req = [.respond 401 (authFailure "Unauthorized" "Authentication required")] := by
  simp [deleteUser, deleteUserTry, h, hu, authFailure]

theorem deleteUser_not_owner {data : JSObj} {p : Principal}
    (h : env.userIdSchema req.params = .ok data) (hu : req.user = some p)
    (hown : (JSVal.strictNe p.id (getProp data "id") &&
      JSVal.strictNe p.role (.str "admin")) = true) :
    deleteUser env req =
      [.respond 403 (authFailure "Forbidden" "You can only delete your own account")] := by
  simp [deleteUser, deleteUserTry, h, hu, hown, authFailure]

theorem deleteUser_ok {data : JSObj} {p : Principal}
    (h : env.userIdSchema req.params = .ok data) (hu : req.user = some p)
    (hown : (JSVal.strictNe p.id (getProp data "id") &&
      JSVal.strictNe p.role (.str "admin")) = false)
    (hs : env.deleteUserService (getProp data "id") = .ok ()) :
    deleteUser env req =
      [.logInfo "Deleting user with ID: " (some (getProp data "id")),
       .call (.deleteUser (getProp data "id")),
       .respond 200 [("message", .val (.str "User deleted successfully"))]] := by
  simp [deleteUser, deleteUserTry, h, hu, hown, hs]

theorem deleteUser_error {data : JSObj} {p : Principal} {e : JSError}
    (h : env.userIdSchema req.params = .ok data) (hu : req.user = some p)
    (hown : (JSVal.strictNe p.id (getProp data "id") &&
      JSVal.strictNe p.role (.str "admin")) = false)
    (hs : env.deleteUserService (getProp data "id") = .error e) :
    deleteUser env req =
      [.logInfo "Deleting user with ID: " (some (getProp data "id")),
       .call (.deleteUser (getProp data "id")),
       .logError (some "Error deleting user") e,
       if e.message = .str "User not found" then .respond 404 notFoundBody else .next e] := by
  by_cases hm : e.message = .str "User not found"
  · simp [deleteUser, deleteUserTry, h, hu, hown, hs, hm, JSVal.strictEq, notFoundBody]
  · have hm2 : JSVal.strictEq e.message (.str "User not found") = false := by
      rw [← Bool.not_eq_true, strictEq_str_iff]; exact hm
    simp [deleteUser, deleteUserTry, h, hu, hown, hs, hm, hm2]

end Traces

/-! ## Every run of a handler is one of its cases -/

section Cases

variable (env : Env ρ β) (req : Request ρ β)

theorem fetchAllUsers_cases :
    (∃ users, env.getAllUsers () = .ok users ∧
      fetchAllUsers env req =
        [.logInfo "Getting users..." none, .call .getAllUsers,
         .respond 200 [("message", .val (.str "Successfully retrieved usres")),
                       ("users", .list users), ("count", .val (.num users.length))]]) ∨
    (∃ e, env.getAllUsers () = .error e ∧
      fetchAllUsers env req =
        [.logInfo "Getting users..." none, .call .getAllUsers, .logError none e, .next e]) := by
  cases h : env.getAllUsers () with
  | ok users => exact Or.inl ⟨users, rfl, fetchAllUsers_ok env req h⟩
  | error e => exact Or.inr ⟨e, rfl, fetchAllUsers_error env req h⟩

theorem getUserById_cases :
    (∃ err, env.userIdSchema req.params = .error err ∧
      getUserById env req =
        [.respond 400 (validationFailure (env.formatValidationError err))]) ∨
    (∃ data user, env.userIdSchema req.params = .ok data ∧
      env.getUserByIdService (getProp data "id") = .ok user ∧
      getUserById env req =
        [.logInfo "Getting user with ID: " (some (getProp data "id")),
         .call (.getUserById (getProp data "id")),
         .respond 200 [("message", .val (.str "Successfully retrieved user")),
                       ("user", .val user)]]) ∨
    (∃ data e, env.userIdSchema req.params = .ok data ∧
      env.getUserByIdService (getProp data "id") = .error e ∧
      getUserById env req =
        [.logInfo "Getting user with ID: " (some (getProp data "id")),
         .call (.getUserById (getProp data "id")),
         .logError (some "Error fetching user by ID") e,
         if e.message = .str "User not found" then .respond 404 notFoundBody else .next e]) := by
  cases h : env.userIdSchema req.params with
  | error err => exact Or.inl ⟨err, rfl, getUserById_bad_id env req h⟩
  | ok data =>
    cases hs : env.getUserByIdService (getProp data "id") with
    | ok user => exact Or.inr (Or.inl ⟨data, user, rfl, hs, getUserById_ok env req h hs⟩)
    | error e => exact Or.inr (Or.inr ⟨data, e, rfl, hs, getUserById_error env req h hs⟩)

theorem deleteUser_cases :
    (∃ err, env.userIdSchema req.params = .error err ∧
      deleteUser env req =
        [.respond 400 (validationFailure (env.formatValidationError err))]) ∨
    (∃ data, env.userIdSchema req.params = .ok data ∧ req.user = none ∧
      deleteUser env req =
        [.respond 401 (authFailure "Unauthorized" "Authentication required")]) ∨
    (∃ data p, env.userIdSchema req.params = .ok data ∧ req.user = some p ∧
      (JSVal.strictNe p.id (getProp data "id") && JSVal.strictNe p.role (.str "admin")) = true ∧
      deleteUser env req =
        [.respond 403 (authFailure "Forbidden" "You can only delete your own account")]) ∨
    (∃ data p, env.userIdSchema req.params = .ok data ∧ req.user = some p ∧
      (JSVal.strictNe p.id (getProp data "id") && JSVal.strictNe p.role (.str "admin")) = false ∧
      env.deleteUserService (getProp data "id") = .ok () ∧
      deleteUser env req =
        [.logInfo "Deleting user with ID: " (some (getProp data "id")),
         .call (.deleteUser (getProp data "id")),
         .respond 200 [("message", .val (.str "User deleted successfully"))]]) ∨
    (∃ data p e, env.userIdSchema req.params = .ok data ∧ req.user = some p ∧
      (JSVal.strictNe p.id (getProp data "id") && JSVal.strictNe p.role (.str "admin")) = false ∧
      env.deleteUserService (getProp data "id") = .error e ∧
      deleteUser env req =
        [.logInfo "Deleting user with ID: " (some (getProp data "id")),
         .call (.deleteUser (getProp data "id")),
         .logError (some "Error deleting user") e,
         if e.message = .str "User not found" then .respond 404 notFoundBody else .next e]) := by
  cases h : env.userIdSchema req.params with
  | error err => exact Or.inl ⟨err, rfl, deleteUser_bad_id env req h⟩
  | ok data =>
    cases hu : req.user with
    | none => exact Or.inr (Or.inl ⟨data, rfl, rfl, deleteUser_no_principal env req h hu⟩)
    | some p =>
      cases hown : (JSVal.strictNe p.id (getProp data "id") &&
          JSVal.strictNe p.role (.str "admin")) with
      | true =>
        exact Or.inr (Or.inr (Or.inl ⟨data, p, rfl, rfl, hown,
          deleteUser_not_owner env req h hu hown⟩))
      | false =>
        cases hs : env.deleteUserService (getProp data "id") with
        | ok u =>
          exact Or.inr (Or.inr (Or.inr (Or.inl ⟨data, p, rfl, rfl, hown, hs,
            deleteUser_ok env req h hu hown hs⟩)))
        | error e =>
          exact Or.inr (Or.inr (Or.inr (Or.inr ⟨data, p, e, rfl, rfl, hown, hs,
            deleteUser_error env req h hu hown hs⟩)))

theorem updateUser_cases :
    (∃ err, env.userIdSchema req.params = .error err ∧
      updateUser env req =
        [.respond 400 (validationFailure (env.formatValidationError err))]) ∨
    (∃ idData err, env.userIdSchema req.params = .ok idData ∧
      env.updateUserSchema req.body = .error err ∧
      updateUser env req =
        [.respond 400 (validationFailure (env.formatValidationError err))]) ∨
    (∃ idData updates, env.userIdSchema req.params = .ok idData ∧
      env.updateUserSchema req.body = .ok updates ∧ req.user = none ∧
      updateUser env req =
        [.respond 401 (authFailure "Unauthorized" "Authentication required")]) ∨
    (∃ idData updates p, env.userIdSchema req.params = .ok idData ∧
      env.updateUserSchema req.body = .ok updates ∧ req.user = some p ∧
      (JSVal.strictNe p.id (getProp idData "id") &&
        JSVal.strictNe p.role (.str "admin")) = true ∧
      updateUser env req =
        [.respond 403 (authFailure "Forbidden" "You can only update your own information")]) ∨
    (∃ idData updates p, env.userIdSchema req.params = .ok idData ∧
      env.updateUserSchema req.body = .ok updates ∧ req.user = some p ∧
      (JSVal.strictNe p.id (getProp idData "id") &&
        JSVal.strictNe p.role (.str "admin")) = false ∧
      ((getProp updates "role").truthy && JSVal.strictNe p.role (.str "admin")) = true ∧
      updateUser env req =
        [.respond 403 (authFailure "Forbidden" "Only admins can change user roles")]) ∨
    (∃ idData updates p u, env.userIdSchema req.params = .ok idData ∧
      env.updateUserSchema req.body = .ok updates ∧ req.user = some p ∧
      (JSVal.strictNe p.id (getProp idData "id") &&
        JSVal.strictNe p.role (.str "admin")) = false ∧
      ((getProp updates "role").truthy && JSVal.strictNe p.role (.str "admin")) = false ∧
      env.updateUserService (getProp idData "id") updates = .ok u ∧
      updateUser env req =
        [.logInfo "Updating user with ID: " (some (getProp idData "id")),
         .call (.updateUser (getProp idData "id") updates),
         .respond 200 [("message", .val (.str "User updated successfully")),
                       ("user", .val u)]]) ∨
    (∃ idData updates p e, env.userIdSchema req.params = .ok idData ∧
      env.updateUserSchema req.body = .ok updates ∧ req.user = some p ∧
      (JSVal.strictNe p.id (getProp idData "id") &&
        JSVal.strictNe p.role (.str "admin")) = false ∧
      ((getProp updates "role").truthy && JSVal.strictNe p.role (.str "admin")) = false ∧
      env.updateUserService (getProp idData "id") updates = .error e ∧
      updateUser env req =
        [.logInfo "Updating user with ID: " (some (getProp idData "id")),
         .call (.updateUser (getProp idData "id") updates),
         .logError (some "Error updating user") e,
         if e.message = .str "User not found" then .respond 404 notFoundBody else .next e]) := by
  cases h : env.userIdSchema req.params with
  | error err => exact Or.inl ⟨err, rfl, updateUser_bad_id env req h⟩
  | ok idData =>
    right
    cases hb : env.updateUserSchema req.body with
    | error err => exact Or.inl ⟨idData, err, rfl, rfl, updateUser_bad_body env req h hb⟩
    | ok updates =>
      right
      cases hu : req.user with
      | none => exact Or.inl ⟨idData, updates, rfl, rfl, rfl, updateUser_no_principal env req h hb hu⟩
      | some p =>
        right
        cases hown : (JSVal.strictNe p.id (getProp idData "id") &&
            JSVal.strictNe p.role (.str "admin")) with
        | true =>
          exact Or.inl ⟨idData, updates, p, rfl, rfl, rfl, hown,
            updateUser_not_owner env req h hb hu hown⟩
        | false =>
          right
          cases hrole : ((getProp updates "role").truthy &&
              JSVal.strictNe p.role (.str "admin")) with
          | true =>
            exact Or.inl ⟨idData, updates, p, rfl, rfl, rfl, hown, hrole,
              updateUser_role_denied env req h hb hu hown hrole⟩
          | false =>
            right
            cases hs : env.updateUserService (getProp idData "id") updates with
            | ok u =>
              exact Or.inl ⟨idData, updates, p, u, rfl, rfl, rfl, hown, hrole, hs,
                updateUser_ok env req h hb hu hown hrole hs⟩
            | error e =>
              exact Or.inr ⟨idData, updates, p, e, rfl, rfl, rfl, hown, hrole, hs,
                updateUser_error env req h hb hu hown hrole hs⟩

end Cases

/-! ## Malformed ids -/

/-- C5: when the route parameters fail the user-id schema, each of `getUserById`,
`updateUser` and `deleteUser` answers 400 with the body
`{ error: "Validation Failed", details }`, where `details` is the formatted
validation error, and calls no service, whatever the body and the principal of
the request are. -/
theorem malformed_id_is_rejected (env : Env ρ β) (params : ρ) (err : JSVal)
    (h : env.userIdSchema params = .error err) (body : β) (user : Option Principal) :
    (getUserById env ⟨params, body, user⟩ =
        [.respond 400 (validationFailure (env.formatValidationError err))] ∧
      calls (getUserById env ⟨params, body, user⟩) = []) ∧
    (updateUser env ⟨params, body, user⟩ =
        [.respond 400 (validationFailure (env.formatValidationError err))] ∧
      calls (updateUser env ⟨params, body, user⟩) = []) ∧
    (deleteUser env ⟨params, body, user⟩ =
        [.respond 400 (validationFailure (env.formatValidationError err))] ∧
      calls (deleteUser env ⟨params, body, user⟩) = []) := by
  have hg := getUserById_bad_id env ⟨params, body, user⟩ h
  have hu := updateUser_bad_id env ⟨params, body, user⟩ h
  have hd := deleteUser_bad_id env ⟨params, body, user⟩ h
  rw [hg, hu, hd]
  simp [calls, Event.isCall]

/-- The id `abc` is refused by every handler, here for an admin sending a
well-formed body. -/
theorem malformed_id_is_rejected_witness :
    Sample.env.userIdSchema [("id", .str "abc")] = .error (.str "ID must be a valid number") ∧
    ((getUserById Sample.env
          (Sample.request "abc" [("name", .str "X")] (some ⟨.str "1", .str "admin"⟩)) =
        [.respond 400 [("error", .val (.str "Validation Failed")),
                       ("details", .val (.str "ID must be a valid number"))]] ∧
      calls (getUserById Sample.env
          (Sample.request "abc" [("name", .str "X")] (some ⟨.str "1", .str "admin"⟩))) = []) ∧
    (updateUser Sample.env
          (Sample.request "abc" [("name", .str "X")] (some ⟨.str "1", .str "admin"⟩)) =
        [.respond 400 [("error", .val (.str "Validation Failed")),
                       ("details", .val (.str "ID must be a valid number"))]] ∧
      calls (updateUser Sample.env
          (Sample.request "abc" [("name", .str "X")] (some ⟨.str "1", .str "admin"⟩))) = []) ∧
    (deleteUser Sample.env
          (Sample.request "abc" [("name", .str "X")] (some ⟨.str "1", .str "admin"⟩)) =
        [.respond 400 [("error", .val (.str "Validation Failed")),
                       ("details", .val (.str "ID must be a valid number"))]] ∧
      calls (deleteUser Sample.env
          (Sample.request "abc" [("name", .str "X")] (some ⟨.str "1", .str "admin"⟩))) = [])) :=
  ⟨rfl, malformed_id_is_rejected Sample.env [("id", .str "abc")]
    (.str "ID must be a valid number") rfl [("name", .str "X")] (some ⟨.str "1", .str "admin"⟩)⟩

/-! ## Deleting a user -/

/-- C8: `deleteUser` answers by its first failing gate, in this order: (1) the id
fails the id schema: 400; (2) no principal: 401 with `Unauthorized` and
`Authentication required`; (3) the principal is neither the target nor an
admin: 403 with `Forbidden` and `You can only delete your own account`.  So a
malformed id without principal gets 400, and a valid id without principal gets
401. -/
theorem deleteUser_gate_order (env : Env ρ β) (req : Request ρ β) :
    (∀ err, env.userIdSchema req.params = .error err →
      deleteUser env req =
        [.respond 400 (validationFailure (env.formatValidationError err))]) ∧
    (∀ data, env.userIdSchema req.params = .ok data → req.user = none →
      deleteUser env req =
        [.respond 401 (authFailure "Unauthorized" "Authentication required")]) ∧
    (∀ data p, env.userIdSchema req.params = .ok data → req.user = some p →
      JSVal.strictNe p.id (getProp data "id") = true →
      JSVal.strictNe p.role (.str "admin") = true →
      deleteUser env req =
        [.respond 403 (authFailure "Forbidden" "You can only delete your own account")]) := by
  refine ⟨fun err h => deleteUser_bad_id env req h,
    fun data h hu => deleteUser_no_principal env req h hu, ?_⟩
  intro data p h hu h1 h2
  exact deleteUser_not_owner env req h hu (by simp [h1, h2])

/-- The three gates of `deleteUser` on sample requests: a malformed id without
principal, a valid id without principal, and user 2 deleting user 5. -/
theorem deleteUser_gate_order_witness :
    deleteUser Sample.env (Sample.request "abc" [] none) =
      [.respond 400 [("error", .val (.str "Validation Failed")),
                     ("details", .val (.str "ID must be a valid number"))]] ∧
    deleteUser Sample.env (Sample.request "5" [] none) =
      [.respond 401 [("error", .val (.str "Unauthorized")),
                     ("message", .val (.str "Authentication required"))]] ∧
    deleteUser Sample.env (Sample.request "5" [] (some ⟨.str "2", .str "user"⟩)) =
      [.respond 403 [("error", .val (.str "Forbidden")),
                     ("message", .val (.str "You can only delete your own account"))]] :=
  ⟨(deleteUser_gate_order Sample.env (Sample.request "abc" [] none)).1
      (.str "ID must be a valid number") rfl,
   (deleteUser_gate_order Sample.env (Sample.request "5" [] none)).2.1
      [("id", .str "5")] rfl rfl,
   (deleteUser_gate_order Sample.env (Sample.request "5" [] (some ⟨.str "2", .str "user"⟩))).2.2
      [("id", .str "5")] ⟨.str "2", .str "user"⟩ rfl rfl rfl rfl⟩

/-- C7: a delete request with a schema-valid id and a principal whose id is the
target id reaches the delete service, called once with that id, whatever the
role of the principal; when the service succeeds the answer is 200 with the
body `{ message: "User deleted successfully" }` and nothing else. -/
theorem deleteUser_own_account (env : Env ρ β) (req : Request ρ β) (data : JSObj)
    (p : Principal) (h : env.userIdSchema req.params = .ok data) (hu : req.user = some p)
    (hself : JSVal.strictEq p.id (getProp data "id") = true) :
    calls (deleteUser env req) = [.call (.deleteUser (getProp data "id"))] ∧
    (env.deleteUserService (getProp data "id") = .ok () →
      outcomes (deleteUser env req) =
        [.respond 200 [("message", .val (.str "User deleted successfully"))]]) := by
  have hown : (JSVal.strictNe p.id (getProp data "id") &&
      JSVal.strictNe p.role (.str "admin")) = false := by
    rw [ownership_gate_iff]; exact Or.inl hself
  constructor
  · cases hs : env.deleteUserService (getProp data "id") with
    | error e =>
      rw [deleteUser_error env req h hu hown hs]
      by_cases hm : e.message = .str "User not found" <;> simp [calls, Event.isCall, hm]
    | ok u =>
      rw [deleteUser_ok env req h hu hown hs]
      simp [calls, Event.isCall]
  · intro hs
    rw [deleteUser_ok env req h hu hown hs]
    simp [outcomes, Event.isOutcome]

/-- User 5, an ordinary user, deletes its own account. -/
theorem deleteUser_own_account_witness :
    Sample.env.userIdSchema (Sample.request "5" [] (some ⟨.str "5", .str "user"⟩)).params =
      .ok [("id", .str "5")] ∧
    JSVal.strictEq (.str "5") (getProp [("id", .str "5")] "id") = true ∧
    calls (deleteUser Sample.env (Sample.request "5" [] (some ⟨.str "5", .str "user"⟩))) =
      [.call (.deleteUser (.str "5"))] ∧
    outcomes (deleteUser Sample.env (Sample.request "5" [] (some ⟨.str "5", .str "user"⟩))) =
      [.respond 200 [("message", .val (.str "User deleted successfully"))]] :=
  ⟨rfl, rfl,
   (deleteUser_own_account Sample.env (Sample.request "5" [] (some ⟨.str "5", .str "user"⟩))
      [("id", .str "5")] ⟨.str "5", .str "user"⟩ rfl rfl rfl).1,
   (deleteUser_own_account Sample.env (Sample.request "5" [] (some ⟨.str "5", .str "user"⟩))
      [("id", .str "5")] ⟨.str "5", .str "user"⟩ rfl rfl rfl).2 rfl⟩

/-! ## Listing users -/

/-- C9: when the listing service returns a sequence of users, `fetchAllUsers`
answers with the success status and the body `{ message, users, count }` whose
`users` is that sequence and whose `count` is its length; when the service
fails, the error goes unchanged to `next` and no response is sent; and the
trace does not depend on the request, so no role of the principal is checked. -/
theorem fetchAllUsers_lists (env : Env ρ β) (req : Request ρ β) :
    (∀ users, env.getAllUsers () = .ok users →
      outcomes (fetchAllUsers env req) =
        [.respond 200 [("message", .val (.str "Successfully retrieved usres")),
                       ("users", .list users),
                       ("count", .val (.num users.length))]]) ∧
    (∀ e, env.getAllUsers () = .error e →
      outcomes (fetchAllUsers env req) = [.next e]) ∧
    (∀ req2 : Request ρ β, fetchAllUsers env req2 = fetchAllUsers env req) := by
  refine ⟨?_, ?_, fun req2 => rfl⟩
  · intro users h
    rw [fetchAllUsers_ok env req h]
    simp [outcomes, Event.isOutcome]
  · intro e h
    rw [fetchAllUsers_error env req h]
    simp [outcomes, Event.isOutcome]

/-- A listing of three users, and a listing from a store that is down. -/
theorem fetchAllUsers_lists_witness :
    outcomes (fetchAllUsers Sample.env (Sample.request "" [] (some ⟨.str "2", .str "user"⟩))) =
      [.respond 200 [("message", .val (.str "Successfully retrieved usres")),
                     ("users", .list [.ref 10, .ref 11, .ref 12]),
                     ("count", .val (.num 3))]] ∧
    outcomes (fetchAllUsers Sample.downEnv (Sample.request "" [] none)) =
      [.next Sample.dbDown] :=
  ⟨(fetchAllUsers_lists Sample.env
      (Sample.request "" [] (some ⟨.str "2", .str "user"⟩))).1 [.ref 10, .ref 11, .ref 12] rfl,
   (fetchAllUsers_lists Sample.downEnv (Sample.request "" [] none)).2.1 Sample.dbDown rfl⟩

/-! ## Ownership of mutations -/

/-- C4: every service call of `updateUser` is a call of the update service, and
every service call of `deleteUser` a call of the delete service, made with
exactly the id parsed by the id schema and only on a request that carries a
principal who is the target (`principal.id === id`) or an admin. -/
theorem mutation_needs_owner_or_admin (env : Env ρ β) (req : Request ρ β) :
    (∀ c, Event.call c ∈ updateUser env req →
      ∃ data updates p, env.userIdSchema req.params = .ok data ∧ req.user = some p ∧
        c = .updateUser (getProp data "id") updates ∧
        (JSVal.strictEq p.id (getProp data "id") = true ∨
          JSVal.strictEq p.role (.str "admin") = true)) ∧
    (∀ c, Event.call c ∈ deleteUser env req →
      ∃ data p, env.userIdSchema req.params = .ok data ∧ req.user = some p ∧
        c = .deleteUser (getProp data "id") ∧
        (JSVal.strictEq p.id (getProp data "id") = true ∨
          JSVal.strictEq p.role (.str "admin") = true)) := by
  constructor
  · intro c hc
    rcases updateUser_cases env req with ⟨_, _, ht⟩ | ⟨_, _, _, _, ht⟩ | ⟨_, _, _, _, _, ht⟩ |
      ⟨_, _, _, _, _, _, _, ht⟩ | ⟨_, _, _, _, _, _, _, _, ht⟩ |
      ⟨d, u, p, _, hid, _, hu, hown, _, _, ht⟩ | ⟨d, u, p, e, hid, _, hu, hown, _, _, ht⟩
    all_goals rw [ht] at hc
    · simp at hc
    · simp at hc
    · simp at hc
    · simp at hc
    · simp at hc
    · simp at hc
      exact ⟨d, u, p, hid, hu, hc, (ownership_gate_iff p _).1 hown⟩
    · by_cases hm : e.message = .str "User not found" <;> simp [hm] at hc <;>
        exact ⟨d, u, p, hid, hu, hc, (ownership_gate_iff p _).1 hown⟩
  · intro c hc
    rcases deleteUser_cases env req with ⟨_, _, ht⟩ | ⟨_, _, _, ht⟩ | ⟨_, _, _, _, _, ht⟩ |
      ⟨d, p, hid, hu, hown, _, ht⟩ | ⟨d, p, e, hid, hu, hown, _, ht⟩
    all_goals rw [ht] at hc
    · simp at hc
    · simp at hc
    · simp at hc
    · simp at hc
      exact ⟨d, p, hid, hu, hc, (ownership_gate_iff p _).1 hown⟩
    · by_cases hm : e.message = .str "User not found" <;> simp [hm] at hc <;>
        exact ⟨d, p, hid, hu, hc, (ownership_gate_iff p _).1 hown⟩

/-- User 5 renames itself, and admin 2 deletes user 5: both calls reach the
service, with id 5, under a principal who is the owner or an admin. -/
theorem mutation_needs_owner_or_admin_witness :
    (Event.call (.updateUser (.str "5") [("name", .str "X")]) ∈
        updateUser Sample.env
          (Sample.request "5" [("name", .str "X")] (some ⟨.str "5", .str "user"⟩)) ∧
      ∃ data updates p,
        Sample.env.userIdSchema
            (Sample.request "5" [("name", .str "X")] (some ⟨.str "5", .str "user"⟩)).params =
          .ok data ∧
        (Sample.request "5" [("name", .str "X")] (some ⟨.str "5", .str "user"⟩)).user = some p ∧
        ServiceCall.updateUser (.str "5") [("name", .str "X")] =
          .updateUser (getProp data "id") updates ∧
        (JSVal.strictEq p.id (getProp data "id") = true ∨
          JSVal.strictEq p.role (.str "admin") = true)) ∧
    (Event.call (.deleteUser (.str "5")) ∈
        deleteUser Sample.env (Sample.request "5" [] (some ⟨.str "2", .str "admin"⟩)) ∧
      ∃ data p,
        Sample.env.userIdSchema
            (Sample.request "5" [] (some ⟨.str "2", .str "admin"⟩)).params = .ok data ∧
        (Sample.request "5" [] (some ⟨.str "2", .str "admin"⟩)).user = some p ∧
        ServiceCall.deleteUser (.str "5") = .deleteUser (getProp data "id") ∧
        (JSVal.strictEq p.id (getProp data "id") = true ∨
          JSVal.strictEq p.role (.str "admin") = true)) :=
  ⟨⟨by decide,
    (mutation_needs_owner_or_admin Sample.env
      (Sample.request "5" [("name", .str "X")] (some ⟨.str "5", .str "user"⟩))).1 _ (by decide)⟩,
   ⟨by decide,
    (mutation_needs_owner_or_admin Sample.env
      (Sample.request "5" [] (some ⟨.str "2", .str "admin"⟩))).2 _ (by decide)⟩⟩


/-! ## Failures of the service -/

theorem failure_getUserById_error (env : Env ρ β) {id : JSVal} {e : JSError}
    (h : env.getUserByIdService id = .error e) : env.failure (.getUserById id) = some e := by
  simp [Env.failure, h]

theorem failure_getUserById_ok (env : Env ρ β) {id u : JSVal}
    (h : env.getUserByIdService id = .ok u) : env.failure (.getUserById id) = none := by
  simp [Env.failure, h]

theorem failure_updateUser_error (env : Env ρ β) {id : JSVal} {updates : JSObj} {e : JSError}
    (h : env.updateUserService id updates = .error e) :
    env.failure (.updateUser id updates) = some e := by
  simp [Env.failure, h]

theorem failure_updateUser_ok (env : Env ρ β) {id u : JSVal} {updates : JSObj}
    (h : env.updateUserService id updates = .ok u) :
    env.failure (.updateUser id updates) = none := by
  simp [Env.failure, h]

theorem failure_deleteUser_error (env : Env ρ β) {id : JSVal} {e : JSError}
    (h : env.deleteUserService id = .error e) : env.failure (.deleteUser id) = some e := by
  simp [Env.failure, h]

theorem failure_deleteUser_ok (env : Env ρ β) {id : JSVal} {u : Unit}
    (h : env.deleteUserService id = .ok u) : env.failure (.deleteUser id) = none := by
  simp [Env.failure, h]

/-- A trace that forwards nothing and whose service calls all succeeded. -/
theorem failure_policy_of_quiet (env : Env ρ β) (t : List Event)
    (hn : ∀ e, Event.next e ∉ t) (hc : ∀ c, Event.call c ∈ t → env.failure c = none) :
    (∀ c e, Event.call c ∈ t → env.failure c = some e →
      (e.message = .str "User not found" → outcomes t = [.respond 404 notFoundBody]) ∧
      (e.message ≠ .str "User not found" → outcomes t = [.next e])) ∧
    (∀ e, Event.next e ∈ t → ∃ c, Event.call c ∈ t ∧ env.failure c = some e) ∧
    (∀ s b, Event.respond s b ∈ t → s = 400 ∨ s = 401 ∨ s = 403 → ∀ e, Event.next e ∉ t) := by
  refine ⟨fun c e h1 h2 => ?_, fun e he => absurd he (hn e), fun _ _ _ _ e => hn e⟩
  rw [hc c h1] at h2
  cases h2

/-- The trace of a handler whose service call failed with `e`. -/
theorem failure_policy_of_failed (env : Env ρ β) (m : String) (v : Option JSVal)
    (l : Option String) (c : ServiceCall) (e : JSError) (hf : env.failure c = some e) :
    (∀ c2 e2,
      Event.call c2 ∈ [Event.logInfo m v, .call c, .logError l e,
        if e.message = .str "User not found" then .respond 404 notFoundBody else .next e] →
      env.failure c2 = some e2 →
      (e2.message = .str "User not found" →
        outcomes [Event.logInfo m v, .call c, .logError l e,
          if e.message = .str "User not found" then .respond 404 notFoundBody else .next e] =
          [.respond 404 notFoundBody]) ∧
      (e2.message ≠ .str "User not found" →
        outcomes [Event.logInfo m v, .call c, .logError l e,
          if e.message = .str "User not found" then .respond 404 notFoundBody else .next e] =
          [.next e2])) ∧
    (∀ e2,
      Event.next e2 ∈ [Event.logInfo m v, .call c, .logError l e,
        if e.message = .str "User not found" then .respond 404 notFoundBody else .next e] →
      ∃ c2,
        Event.call c2 ∈ [Event.logInfo m v, .call c, .logError l e,
          if e.message = .str "User not found" then .respond 404 notFoundBody else .next e] ∧
        env.failure c2 = some e2) ∧
    (∀ s b,
      Event.respond s b ∈ [Event.logInfo m v, .call c, .logError l e,
        if e.message = .str "User not found" then .respond 404 notFoundBody else .next e] →
      s = 400 ∨ s = 401 ∨ s = 403 →
      ∀ e2,
        Event.next e2 ∉ [Event.logInfo m v, .call c, .logError l e,
          if e.message = .str "User not found" then .respond 404 notFoundBody else .next e]) := by
  by_cases hm : e.message = .str "User not found"
  · simp only [hm, if_true]
    refine ⟨fun c2 e2 h1 h2 => ?_, fun e2 he => ?_, fun s b _ _ e2 he => ?_⟩
    · simp at h1
      subst h1
      rw [hf] at h2
      cases h2
      simp [outcomes, Event.isOutcome, hm]
    · simp at he
    · simp at he
  · simp only [hm, if_false]
    refine ⟨fun c2 e2 h1 h2 => ?_, fun e2 he => ?_, fun s b hb hs e2 _ => ?_⟩
    · simp at h1
      subst h1
      rw [hf] at h2
      cases h2
      simp [outcomes, Event.isOutcome, hm]
    · simp at he
      subst he
      exact ⟨c, by simp, hf⟩
    · simp at hb

/-- C6: when the service call of `getUserById`, `updateUser` or `deleteUser`
fails with an error whose message is exactly `User not found`, the only outcome
is the response 404 with body `{ error: "User not found" }` and nothing goes to
`next`; with any other message the only outcome is `next` with that same
error, so no 404 is sent.  Conversely a handler calls `next` only with the
error of a service call it made, and a trace with a 400, 401 or 403 response
never calls `next`. -/
theorem service_failure_policy (h : Handler) (env : Env ρ β) (req : Request ρ β) :
    (h ≠ .fetchAllUsers → ∀ c e, Event.call c ∈ h.run env req → env.failure c = some e →
      (e.message = .str "User not found" →
        outcomes (h.run env req) = [.respond 404 notFoundBody]) ∧
      (e.message ≠ .str "User not found" → outcomes (h.run env req) = [.next e])) ∧
    (∀ e, Event.next e ∈ h.run env req →
      ∃ c, Event.call c ∈ h.run env req ∧ env.failure c = some e) ∧
    (∀ s b, Event.respond s b ∈ h.run env req → s = 400 ∨ s = 401 ∨ s = 403 →
      ∀ e, Event.next e ∉ h.run env req) := by
  cases h with
  | fetchAllUsers =>
    simp only [Handler.run]
    rcases fetchAllUsers_cases env req with ⟨users, hs, ht⟩ | ⟨e, hs, ht⟩ <;> rw [ht] <;>
      simp [Env.failure, hs]
  | getUserById =>
    simp only [Handler.run]
    rcases getUserById_cases env req with ⟨_, _, ht⟩ | ⟨_, _, _, hs, ht⟩ | ⟨_, e, _, hs, ht⟩ <;>
      rw [ht]
    · refine (fun X => ⟨fun _ => X.1, X.2⟩) (failure_policy_of_quiet env _ ?_ ?_) <;> simp
    · refine (fun X => ⟨fun _ => X.1, X.2⟩) (failure_policy_of_quiet env _ ?_ ?_)
      · simp
      · intro c hc
        simp at hc
        subst hc
        exact failure_getUserById_ok env hs
    · exact (fun X => ⟨fun _ => X.1, X.2⟩)
        (failure_policy_of_failed env _ _ _ _ e (failure_getUserById_error env hs))
  | updateUser =>
    simp only [Handler.run]
    rcases updateUser_cases env req with ⟨_, _, ht⟩ | ⟨_, _, _, _, ht⟩ | ⟨_, _, _, _, _, ht⟩ |
      ⟨_, _, _, _, _, _, _, ht⟩ | ⟨_, _, _, _, _, _, _, _, ht⟩ |
      ⟨_, _, _, _, _, _, _, _, _, hs, ht⟩ | ⟨_, _, _, e, _, _, _, _, _, hs, ht⟩ <;> rw [ht]
    · refine (fun X => ⟨fun _ => X.1, X.2⟩) (failure_policy_of_quiet env _ ?_ ?_) <;> simp
    · refine (fun X => ⟨fun _ => X.1, X.2⟩) (failure_policy_of_quiet env _ ?_ ?_) <;> simp
    · refine (fun X => ⟨fun _ => X.1, X.2⟩) (failure_policy_of_quiet env _ ?_ ?_) <;> simp
    · refine (fun X => ⟨fun _ => X.1, X.2⟩) (failure_policy_of_quiet env _ ?_ ?_) <;> simp
    · refine (fun X => ⟨fun _ => X.1, X.2⟩) (failure_policy_of_quiet env _ ?_ ?_) <;> simp
    · refine (fun X => ⟨fun _ => X.1, X.2⟩) (failure_policy_of_quiet env _ ?_ ?_)
      · simp
      · intro c hc
        simp at hc
        subst hc
        exact failure_updateUser_ok env hs
    · exact (fun X => ⟨fun _ => X.1, X.2⟩)
        (failure_policy_of_failed env _ _ _ _ e (failure_updateUser_error env hs))
  | deleteUser =>
    simp only [Handler.run]
    rcases deleteUser_cases env req with ⟨_, _, ht⟩ | ⟨_, _, _, ht⟩ | ⟨_, _, _, _, _, ht⟩ |
      ⟨_, _, _, _, _, hs, ht⟩ | ⟨_, _, e, _, _, _, hs, ht⟩ <;> rw [ht]
    · refine (fun X => ⟨fun _ => X.1, X.2⟩) (failure_policy_of_quiet env _ ?_ ?_) <;> simp
    · refine (fun X => ⟨fun _ => X.1, X.2⟩) (failure_policy_of_quiet env _ ?_ ?_) <;> simp
    · refine (fun X => ⟨fun _ => X.1, X.2⟩) (failure_policy_of_quiet env _ ?_ ?_) <;> simp
    · refine (fun X => ⟨fun _ => X.1, X.2⟩) (failure_policy_of_quiet env _ ?_ ?_)
      · simp
      · intro c hc
        simp at hc
        subst hc
        exact failure_deleteUser_ok env hs
    · exact (fun X => ⟨fun _ => X.1, X.2⟩)
        (failure_policy_of_failed env _ _ _ _ e (failure_deleteUser_error env hs))

/-- Looking up user 999, who does not exist, gives 404; looking up user 5 in a
store that is down forwards the failure. -/
theorem service_failure_policy_witness :
    (Event.call (.getUserById (.str "999")) ∈
        Handler.getUserById.run Sample.env (Sample.request "999" [] none) ∧
      Sample.env.failure (.getUserById (.str "999")) = some Sample.notFound ∧
      Sample.notFound.message = .str "User not found" ∧
      outcomes (Handler.getUserById.run Sample.env (Sample.request "999" [] none)) =
        [.respond 404 [("error", .val (.str "User not found"))]]) ∧
    (Event.call (.getUserById (.str "5")) ∈
        Handler.getUserById.run Sample.downEnv (Sample.request "5" [] none) ∧
      Sample.downEnv.failure (.getUserById (.str "5")) = some Sample.dbDown ∧
      Sample.dbDown.message ≠ .str "User not found" ∧
      outcomes (Handler.getUserById.run Sample.downEnv (Sample.request "5" [] none)) =
        [.next Sample.dbDown]) :=
  ⟨⟨by decide, rfl, rfl,
    ((service_failure_policy Handler.getUserById Sample.env (Sample.request "999" [] none)).1
      (by decide) (.getUserById (.str "999")) Sample.notFound (by decide) rfl).1 rfl⟩,
   ⟨by decide, rfl, by decide,
    ((service_failure_policy Handler.getUserById Sample.downEnv (Sample.request "5" [] none)).1
      (by decide) (.getUserById (.str "5")) Sample.dbDown (by decide) rfl).2 (by decide)⟩⟩


/-! ## One outcome per request -/

theorem single_outcome_of_failed (m : String) (v : Option JSVal) (l : Option String)
    (c : ServiceCall) (e : JSError) :
    (outcomes [Event.logInfo m v, .call c, .logError l e,
      if e.message = .str "User not found" then .respond 404 notFoundBody else .next e]).length
        = 1 ∧
    (∃ o, [Event.logInfo m v, .call c, .logError l e,
      if e.message = .str "User not found" then .respond 404 notFoundBody
      else .next e].getLast? = some o ∧ o.isOutcome = true) ∧
    (calls [Event.logInfo m v, .call c, .logError l e,
      if e.message = .str "User not found" then .respond 404 notFoundBody else .next e]).length
        ≤ 1 ∧
    (∀ c2, Event.call c2 ∈ [Event.logInfo m v, .call c, .logError l e,
      if e.message = .str "User not found" then .respond 404 notFoundBody else .next e] →
      c2 = c) := by
  by_cases hm : e.message = .str "User not found" <;>
    simp [outcomes, calls, Event.isOutcome, Event.isCall, hm]

/-- C10: each of the four handlers, on every request and whatever its
collaborators do, has exactly one outcome, a JSON response or a call of `next`,
and that outcome is the last effect of the handler; it calls the service at
most once, and only on a request that passed every gate of the handler: a valid
id for `getUserById`; a valid id, a valid body, a principal who is the target or
an admin, and no truthy `role` in the payload unless the principal is an admin
for `updateUser`; a valid id and a principal who is the target or an admin for
`deleteUser`. -/
theorem handler_single_outcome (h : Handler) (env : Env ρ β) (req : Request ρ β) :
    (outcomes (h.run env req)).length = 1 ∧
    (∃ o, (h.run env req).getLast? = some o ∧ o.isOutcome = true) ∧
    (calls (h.run env req)).length ≤ 1 ∧
    (∀ c, Event.call c ∈ h.run env req →
      match h with
      | .fetchAllUsers => c = .getAllUsers
      | .getUserById =>
        ∃ data, env.userIdSchema req.params = .ok data ∧ c = .getUserById (getProp data "id")
      | .updateUser =>
        ∃ data updates p, env.userIdSchema req.params = .ok data ∧
          env.updateUserSchema req.body = .ok updates ∧ req.user = some p ∧
          (JSVal.strictEq p.id (getProp data "id") = true ∨
            JSVal.strictEq p.role (.str "admin") = true) ∧
          ((getProp updates "role").truthy = true →
            JSVal.strictEq p.role (.str "admin") = true) ∧
          c = .updateUser (getProp data "id") updates
      | .deleteUser =>
        ∃ data p, env.userIdSchema req.params = .ok data ∧ req.user = some p ∧
          (JSVal.strictEq p.id (getProp data "id") = true ∨
            JSVal.strictEq p.role (.str "admin") = true) ∧
          c = .deleteUser (getProp data "id")) := by
  cases h with
  | fetchAllUsers =>
    simp only [Handler.run]
    rcases fetchAllUsers_cases env req with ⟨users, hs, ht⟩ | ⟨e, hs, ht⟩ <;> rw [ht] <;>
      simp [outcomes, calls, Event.isOutcome, Event.isCall]
  | getUserById =>
    simp only [Handler.run]
    rcases getUserById_cases env req with ⟨_, _, ht⟩ | ⟨d, _, hid, _, ht⟩ | ⟨d, e, hid, _, ht⟩ <;>
      rw [ht]
    · simp [outcomes, calls, Event.isOutcome, Event.isCall]
    · simp [outcomes, calls, Event.isOutcome, Event.isCall, hid]
    · have X := single_outcome_of_failed
        "Getting user with ID: " (some (getProp d "id")) (some "Error fetching user by ID")
        (.getUserById (getProp d "id")) e
      exact ⟨X.1, X.2.1, X.2.2.1, fun c hc => ⟨d, hid, X.2.2.2 c hc⟩⟩
  | updateUser =>
    simp only [Handler.run]
    have role_gate : ∀ (updates : JSObj) (p : Principal),
        ((getProp updates "role").truthy && JSVal.strictNe p.role (.str "admin")) = false →
        (getProp updates "role").truthy = true → JSVal.strictEq p.role (.str "admin") = true := by
      intro updates p hg ht
      simpa [ht, JSVal.strictNe] using hg
    rcases updateUser_cases env req with ⟨_, _, ht⟩ | ⟨_, _, _, _, ht⟩ | ⟨_, _, _, _, _, ht⟩ |
      ⟨_, _, _, _, _, _, _, ht⟩ | ⟨_, _, _, _, _, _, _, _, ht⟩ |
      ⟨d, u, p, _, hid, hb, hu, hown, hrole, _, ht⟩ |
      ⟨d, u, p, e, hid, hb, hu, hown, hrole, _, ht⟩ <;> rw [ht]
    · simp [outcomes, calls, Event.isOutcome, Event.isCall]
    · simp [outcomes, calls, Event.isOutcome, Event.isCall]
    · simp [outcomes, calls, Event.isOutcome, Event.isCall]
    · simp [outcomes, calls, Event.isOutcome, Event.isCall]
    · simp [outcomes, calls, Event.isOutcome, Event.isCall]
    · refine ⟨by simp [outcomes, Event.isOutcome], by simp [Event.isOutcome],
        by simp [calls, Event.isCall], ?_⟩
      intro c hc
      simp at hc
      exact ⟨d, u, p, hid, hb, hu, (ownership_gate_iff p _).1 hown, role_gate u p hrole, hc⟩
    · have X := single_outcome_of_failed
        "Updating user with ID: " (some (getProp d "id")) (some "Error updating user")
        (.updateUser (getProp d "id") u) e
      exact ⟨X.1, X.2.1, X.2.2.1, fun c hc =>
        ⟨d, u, p, hid, hb, hu, (ownership_gate_iff p _).1 hown, role_gate u p hrole,
          X.2.2.2 c hc⟩⟩
  | deleteUser =>
    simp only [Handler.run]
    rcases deleteUser_cases env req with ⟨_, _, ht⟩ | ⟨_, _, _, ht⟩ | ⟨_, _, _, _, _, ht⟩ |
      ⟨d, p, hid, hu, hown, _, ht⟩ | ⟨d, p, e, hid, hu, hown, _, ht⟩ <;> rw [ht]
    · simp [outcomes, calls, Event.isOutcome, Event.isCall]
    · simp [outcomes, calls, Event.isOutcome, Event.isCall]
    · simp [outcomes, calls, Event.isOutcome, Event.isCall]
    · refine ⟨by simp [outcomes, Event.isOutcome], by simp [Event.isOutcome],
        by simp [calls, Event.isCall], ?_⟩
      intro c hc
      simp at hc
      exact ⟨d, p, hid, hu, (ownership_gate_iff p _).1 hown, hc⟩
    · have X := single_outcome_of_failed
        "Deleting user with ID: " (some (getProp d "id")) (some "Error deleting user")
        (.deleteUser (getProp d "id")) e
      exact ⟨X.1, X.2.1, X.2.2.1, fun c hc =>
        ⟨d, p, hid, hu, (ownership_gate_iff p _).1 hown, X.2.2.2 c hc⟩⟩

/-- An admin renaming user 999, who does not exist: one outcome, one service
call, made after all five gates of `updateUser`. -/
theorem handler_single_outcome_witness :
    (outcomes (Handler.updateUser.run Sample.env
      (Sample.request "999" [("name", .str "X")] (some ⟨.str "1", .str "admin"⟩)))).length = 1 ∧
    (calls (Handler.updateUser.run Sample.env
      (Sample.request "999" [("name", .str "X")] (some ⟨.str "1", .str "admin"⟩)))).length ≤ 1 ∧
    Event.call (.updateUser (.str "999") [("name", .str "X")]) ∈
      Handler.updateUser.run Sample.env
        (Sample.request "999" [("name", .str "X")] (some ⟨.str "1", .str "admin"⟩)) ∧
    ∃ data updates p,
      Sample.env.userIdSchema
          (Sample.request "999" [("name", .str "X")] (some ⟨.str "1", .str "admin"⟩)).params =
        .ok data ∧
      Sample.env.updateUserSchema
          (Sample.request "999" [("name", .str "X")] (some ⟨.str "1", .str "admin"⟩)).body =
        .ok updates ∧
      (Sample.request "999" [("name", .str "X")] (some ⟨.str "1", .str "admin"⟩)).user = some p ∧
      (JSVal.strictEq p.id (getProp data "id") = true ∨
        JSVal.strictEq p.role (.str "admin") = true) ∧
      ((getProp updates "role").truthy = true → JSVal.strictEq p.role (.str "admin") = true) ∧
      ServiceCall.updateUser (.str "999") [("name", .str "X")] =
        .updateUser (getProp data "id") updates :=
  ⟨(handler_single_outcome Handler.updateUser Sample.env
      (Sample.request "999" [("name", .str "X")] (some ⟨.str "1", .str "admin"⟩))).1,
   (handler_single_outcome Handler.updateUser Sample.env
      (Sample.request "999" [("name", .str "X")] (some ⟨.str "1", .str "admin"⟩))).2.2.1,
   by decide,
   (handler_single_outcome Handler.updateUser Sample.env
      (Sample.request "999" [("name", .str "X")] (some ⟨.str "1", .str "admin"⟩))).2.2.2
      (.updateUser (.str "999") [("name", .str "X")]) (by decide)⟩


/-! ## Properties and the sample update schema -/

theorem mem_of_lookup_eq_some (k : String) (v : JSVal) (o : JSObj)
    (h : List.lookup k o = some v) : (k, v) ∈ o := by
  induction o with
  | nil => simp at h
  | cons kv rest ih =>
    obtain ⟨k2, v2⟩ := kv
    by_cases hk : k = k2
    · subst hk
      simp [List.lookup] at h
      simp [h]
    · have hb : (k == k2) = false := by simpa using hk
      simp only [List.lookup, hb] at h
      exact List.mem_cons_of_mem _ (ih h)

theorem getProp_of_hasProp (o : JSObj) (k : String) (h : hasProp o k = true) :
    (k, getProp o k) ∈ o := by
  unfold hasProp at h
  obtain ⟨v, hv⟩ := Option.isSome_iff_exists.1 h
  have : getProp o k = v := by simp [getProp, hv]
  rw [this]
  exact mem_of_lookup_eq_some k v o hv

theorem getProp_of_not_hasProp (o : JSObj) (k : String) (h : hasProp o k = false) :
    getProp o k = .undefined := by
  unfold hasProp at h
  have hn : List.lookup k o = none := by
    cases hl : List.lookup k o with
    | none => rfl
    | some v => simp [hl] at h
  simp [getProp, hn]

/-- The sample update schema only validates the roles `user` and `admin`. -/
theorem sample_schema_role_is_truthy : Sample.env.validatedRoleIsTruthy := by
  intro body updates h hp
  have h2 : Sample.updateSchema body = .ok updates := h
  unfold Sample.updateSchema at h2
  split at h2
  · split at h2
    · rename_i hall
      cases h2
      have hm := getProp_of_hasProp body "role" hp
      have hr := (List.all_eq_true.1 hall) _ hm
      simp at hr
      rcases hr with hr | hr <;> simp [hr, JSVal.truthy]
    · cases h2
  · cases h2

/-! ## Updating a user -/

/-- C1: under an update schema whose validated payloads hold no falsy `role`,
`updateUser` answers by its first failing gate, in this order: (1) the id fails
the id schema: 400 `Validation Failed` with details; (2) the body fails the
update schema: 400 `Validation Failed` with details; (3) no principal: 401
`Unauthorized`; (4) `principal.id !== id` and the principal is not an admin: 403
`You can only update your own information`; (5) the payload includes `role`
and the principal is not an admin: 403 `Only admins can change user roles`.
When all five pass, the update service is called once, with the id and the
validated payload, and when it succeeds the answer is 200 with
`{ message, user }`, `user` being the result of the service. -/
theorem updateUser_gate_order (env : Env ρ β) (req : Request ρ β)
    (hschema : env.validatedRoleIsTruthy) :
    (∀ err, env.userIdSchema req.params = .error err →
      updateUser env req =
        [.respond 400 (validationFailure (env.formatValidationError err))]) ∧
    (∀ data err, env.userIdSchema req.params = .ok data →
      env.updateUserSchema req.body = .error err →
      updateUser env req =
        [.respond 400 (validationFailure (env.formatValidationError err))]) ∧
    (∀ data updates, env.userIdSchema req.params = .ok data →
      env.updateUserSchema req.body = .ok updates → req.user = none →
      updateUser env req =
        [.respond 401 (authFailure "Unauthorized" "Authentication required")]) ∧
    (∀ data updates p, env.userIdSchema req.params = .ok data →
      env.updateUserSchema req.body = .ok updates → req.user = some p →
      JSVal.strictNe p.id (getProp data "id") = true →
      JSVal.strictNe p.role (.str "admin") = true →
      updateUser env req =
        [.respond 403 (authFailure "Forbidden" "You can only update your own information")]) ∧
    (∀ data updates p, env.userIdSchema req.params = .ok data →
      env.updateUserSchema req.body = .ok updates → req.user = some p →
      (JSVal.strictEq p.id (getProp data "id") = true ∨
        JSVal.strictEq p.role (.str "admin") = true) →
      hasProp updates "role" = true →
      JSVal.strictNe p.role (.str "admin") = true →
      updateUser env req =
        [.respond 403 (authFailure "Forbidden" "Only admins can change user roles")]) ∧
    (∀ data updates p, env.userIdSchema req.params = .ok data →
      env.updateUserSchema req.body = .ok updates → req.user = some p →
      (JSVal.strictEq p.id (getProp data "id") = true ∨
        JSVal.strictEq p.role (.str "admin") = true) →
      (hasProp updates "role" = false ∨ JSVal.strictEq p.role (.str "admin") = true) →
      calls (updateUser env req) = [.call (.updateUser (getProp data "id") updates)] ∧
      ∀ u, env.updateUserService (getProp data "id") updates = .ok u →
        outcomes (updateUser env req) =
          [.respond 200 [("message", .val (.str "User updated successfully")),
                         ("user", .val u)]]) := by
  refine ⟨fun err h => updateUser_bad_id env req h,
    fun data err h hb => updateUser_bad_body env req h hb,
    fun data updates h hb hu => updateUser_no_principal env req h hb hu, ?_, ?_, ?_⟩
  · intro data updates p h hb hu h1 h2
    exact updateUser_not_owner env req h hb hu (by simp [h1, h2])
  · intro data updates p h hb hu hown h1 h2
    have htr := hschema req.body updates hb h1
    exact updateUser_role_denied env req h hb hu ((ownership_gate_iff p _).2 hown)
      (by simp [htr, h2])
  · intro data updates p h hb hu hown hrole
    have hown2 := (ownership_gate_iff p (getProp data "id")).2 hown
    have hrole2 : ((getProp updates "role").truthy &&
        JSVal.strictNe p.role (.str "admin")) = false := by
      rcases hrole with hr | hr
      · simp [getProp_of_not_hasProp updates "role" hr, JSVal.truthy]
      · simp [hr, JSVal.strictNe]
    cases hs : env.updateUserService (getProp data "id") updates with
    | ok u =>
      rw [updateUser_ok env req h hb hu hown2 hrole2 hs]
      simp [calls, outcomes, Event.isCall, Event.isOutcome]
    | error e =>
      rw [updateUser_error env req h hb hu hown2 hrole2 hs]
      by_cases hm : e.message = .str "User not found" <;>
        simp [calls, Event.isCall, hm]

/-- The six cases of `updateUser` under the sample schema, which only validates
the roles `user` and `admin`; the last case is admin 2 making user 5 an admin. -/
theorem updateUser_gate_order_witness :
    Sample.env.validatedRoleIsTruthy ∧
    updateUser Sample.env (Sample.request "abc" [] none) =
      [.respond 400 [("error", .val (.str "Validation Failed")),
                     ("details", .val (.str "ID must be a valid number"))]] ∧
    updateUser Sample.env (Sample.request "5" [] none) =
      [.respond 400 [("error", .val (.str "Validation Failed")),
                     ("details", .val (.str "Unknown or missing fields"))]] ∧
    updateUser Sample.env (Sample.request "5" [("name", .str "X")] none) =
      [.respond 401 [("error", .val (.str "Unauthorized")),
                     ("message", .val (.str "Authentication required"))]] ∧
    updateUser Sample.env
        (Sample.request "5" [("role", .str "admin")] (some ⟨.str "2", .str "user"⟩)) =
      [.respond 403 [("error", .val (.str "Forbidden")),
                     ("message", .val (.str "You can only update your own information"))]] ∧
    updateUser Sample.env
        (Sample.request "5" [("role", .str "admin")] (some ⟨.str "5", .str "user"⟩)) =
      [.respond 403 [("error", .val (.str "Forbidden")),
                     ("message", .val (.str "Only admins can change user roles"))]] ∧
    (calls (updateUser Sample.env
        (Sample.request "5" [("role", .str "admin")] (some ⟨.str "2", .str "admin"⟩))) =
      [.call (.updateUser (.str "5") [("role", .str "admin")])] ∧
     outcomes (updateUser Sample.env
        (Sample.request "5" [("role", .str "admin")] (some ⟨.str "2", .str "admin"⟩))) =
      [.respond 200 [("message", .val (.str "User updated successfully")),
                     ("user", .val (.ref 20))]]) :=
  ⟨sample_schema_role_is_truthy,
   (updateUser_gate_order Sample.env (Sample.request "abc" [] none)
      sample_schema_role_is_truthy).1 _ rfl,
   (updateUser_gate_order Sample.env (Sample.request "5" [] none)
      sample_schema_role_is_truthy).2.1 [("id", .str "5")] _ rfl rfl,
   (updateUser_gate_order Sample.env (Sample.request "5" [("name", .str "X")] none)
      sample_schema_role_is_truthy).2.2.1 [("id", .str "5")] _ rfl rfl rfl,
   (updateUser_gate_order Sample.env
      (Sample.request "5" [("role", .str "admin")] (some ⟨.str "2", .str "user"⟩))
      sample_schema_role_is_truthy).2.2.2.1 [("id", .str "5")] _ _ rfl rfl rfl rfl rfl,
   (updateUser_gate_order Sample.env
      (Sample.request "5" [("role", .str "admin")] (some ⟨.str "5", .str "user"⟩))
      sample_schema_role_is_truthy).2.2.2.2.1
      [("id", .str "5")] _ _ rfl rfl rfl (Or.inl rfl) rfl rfl,
   ((updateUser_gate_order Sample.env
      (Sample.request "5" [("role", .str "admin")] (some ⟨.str "2", .str "admin"⟩))
      sample_schema_role_is_truthy).2.2.2.2.2
      [("id", .str "5")] _ _ rfl rfl rfl (Or.inr rfl) (Or.inr rfl)).1,
   ((updateUser_gate_order Sample.env
      (Sample.request "5" [("role", .str "admin")] (some ⟨.str "2", .str "admin"⟩))
      sample_schema_role_is_truthy).2.2.2.2.2
      [("id", .str "5")] _ _ rfl rfl rfl (Or.inr rfl) (Or.inr rfl)).2 _ rfl⟩

/-- C2, at a request the claim gets wrong: user 2 sends a body that the update
schema refuses to the record of user 5.  The principal is neither the target nor
an admin, so the claim announces 403; the handler answers 400, because it
validates the body before it looks at the principal. -/
theorem updateUser_foreign_invalid_body :
    Sample.env.userIdSchema [("id", .str "5")] = .ok [("id", .str "5")] ∧
    JSVal.strictNe (.str "2") (getProp [("id", .str "5")] "id") = true ∧
    JSVal.strictNe (.str "user") (.str "admin") = true ∧
    Sample.env.updateUserSchema [("isAdmin", .bool true)] =
      .error (.str "Unknown or missing fields") ∧
    updateUser Sample.env
        (Sample.request "5" [("isAdmin", .bool true)] (some ⟨.str "2", .str "user"⟩)) =
      [.respond 400 [("error", .val (.str "Validation Failed")),
                     ("details", .val (.str "Unknown or missing fields"))]] :=
  ⟨rfl, rfl, rfl, rfl, rfl⟩

/-- C2, amended: on an update request with a valid id whose principal is neither
the target (`principal.id !== id`) nor an admin, `updateUser` answers 403
`You can only update your own information` for every body that is valid
against the update schema, whatever the validated payload holds, and answers
400 `Validation Failed` for every body that is not. -/
theorem updateUser_foreign_principal (env : Env ρ β) (req : Request ρ β) (data : JSObj)
    (p : Principal) (h : env.userIdSchema req.params = .ok data) (hu : req.user = some p)
    (hid : JSVal.strictNe p.id (getProp data "id") = true)
    (hrole : JSVal.strictNe p.role (.str "admin") = true) :
    (∀ updates, env.updateUserSchema req.body = .ok updates →
      updateUser env req =
        [.respond 403 (authFailure "Forbidden" "You can only update your own information")]) ∧
    (∀ err, env.updateUserSchema req.body = .error err →
      updateUser env req =
        [.respond 400 (validationFailure (env.formatValidationError err))]) :=
  ⟨fun _ hb => updateUser_not_owner env req h hb hu (by simp [hid, hrole]),
   fun _ hb => updateUser_bad_body env req h hb⟩

/-- User 2 renames user 5. -/
theorem updateUser_foreign_principal_witness :
    Sample.env.userIdSchema
        (Sample.request "5" [("name", .str "X")] (some ⟨.str "2", .str "user"⟩)).params =
      .ok [("id", .str "5")] ∧
    JSVal.strictNe (.str "2") (getProp [("id", .str "5")] "id") = true ∧
    JSVal.strictNe (.str "user") (.str "admin") = true ∧
    updateUser Sample.env
        (Sample.request "5" [("name", .str "X")] (some ⟨.str "2", .str "user"⟩)) =
      [.respond 403 [("error", .val (.str "Forbidden")),
                     ("message", .val (.str "You can only update your own information"))]] :=
  ⟨rfl, rfl, rfl,
   (updateUser_foreign_principal Sample.env
      (Sample.request "5" [("name", .str "X")] (some ⟨.str "2", .str "user"⟩))
      [("id", .str "5")] ⟨.str "2", .str "user"⟩ rfl rfl rfl rfl).1 [("name", .str "X")] rfl⟩

/-- C3: under an update schema whose validated payloads hold no falsy `role`,
an update request whose validated payload has a `role` property, whatever the
value the schema let through, made by a principal who is not an admin gets 403
and no service call, also when the principal is the target, in which case the
answer is 403 `Only admins can change user roles`.  And whenever `updateUser`
calls the update service with a payload that has a `role` property, the
principal is an admin. -/
theorem role_change_needs_admin (env : Env ρ β) (req : Request ρ β)
    (hschema : env.validatedRoleIsTruthy) :
    (∀ data updates p, env.userIdSchema req.params = .ok data →
      env.updateUserSchema req.body = .ok updates → req.user = some p →
      hasProp updates "role" = true →
      JSVal.strictNe p.role (.str "admin") = true →
      (∃ message, updateUser env req = [.respond 403 (authFailure "Forbidden" message)]) ∧
      calls (updateUser env req) = [] ∧
      (JSVal.strictEq p.id (getProp data "id") = true →
        updateUser env req =
          [.respond 403 (authFailure "Forbidden" "Only admins can change user roles")])) ∧
    (∀ id updates, Event.call (.updateUser id updates) ∈ updateUser env req →
      hasProp updates "role" = true →
      ∃ p, req.user = some p ∧ JSVal.strictEq p.role (.str "admin") = true) := by
  constructor
  · intro data updates p h hb hu hhas hna
    have htr := hschema req.body updates hb hhas
    have hrole : ((getProp updates "role").truthy &&
        JSVal.strictNe p.role (.str "admin")) = true := by simp [htr, hna]
    cases hown : (JSVal.strictNe p.id (getProp data "id") &&
        JSVal.strictNe p.role (.str "admin")) with
    | true =>
      have hne : JSVal.strictEq p.id (getProp data "id") = false := by
        simp [JSVal.strictNe] at hown
        exact hown.1
      rw [updateUser_not_owner env req h hb hu hown]
      exact ⟨⟨_, rfl⟩, by simp [calls, Event.isCall], fun hs => by simp [hs] at hne⟩
    | false =>
      rw [updateUser_role_denied env req h hb hu hown hrole]
      exact ⟨⟨_, rfl⟩, by simp [calls, Event.isCall], fun _ => rfl⟩
  · intro id updates hc hhas
    rcases updateUser_cases env req with ⟨_, _, ht⟩ | ⟨_, _, _, _, ht⟩ | ⟨_, _, _, _, _, ht⟩ |
      ⟨_, _, _, _, _, _, _, ht⟩ | ⟨_, _, _, _, _, _, _, _, ht⟩ |
      ⟨d, u, p, _, _, hb, hu, _, hrole, _, ht⟩ | ⟨d, u, p, e, _, hb, hu, _, hrole, _, ht⟩
    all_goals rw [ht] at hc
    · simp at hc
    · simp at hc
    · simp at hc
    · simp at hc
    · simp at hc
    · simp at hc
      obtain ⟨_, rfl⟩ := hc
      have htr := hschema req.body updates hb hhas
      exact ⟨p, hu, by simpa [htr, JSVal.strictNe] using hrole⟩
    · have hc2 : id = getProp d "id" ∧ updates = u := by
        by_cases hm : e.message = .str "User not found" <;> simpa [hm] using hc
      obtain ⟨_, rfl⟩ := hc2
      have htr := hschema req.body updates hb hhas
      exact ⟨p, hu, by simpa [htr, JSVal.strictNe] using hrole⟩

/-- User 5 tries to make itself an admin, and admin 2 makes user 5 an admin,
under the sample schema, which only validates the roles `user` and `admin`. -/
theorem role_change_needs_admin_witness :
    Sample.env.validatedRoleIsTruthy ∧
    (hasProp [("role", .str "admin")] "role" = true ∧
      calls (updateUser Sample.env
        (Sample.request "5" [("role", .str "admin")] (some ⟨.str "5", .str "user"⟩))) = [] ∧
      updateUser Sample.env
          (Sample.request "5" [("role", .str "admin")] (some ⟨.str "5", .str "user"⟩)) =
        [.respond 403 [("error", .val (.str "Forbidden")),
                       ("message", .val (.str "Only admins can change user roles"))]]) ∧
    (Event.call (.updateUser (.str "5") [("role", .str "admin")]) ∈
        updateUser Sample.env
          (Sample.request "5" [("role", .str "admin")] (some ⟨.str "2", .str "admin"⟩)) ∧
      ∃ p, (Sample.request "5" [("role", .str "admin")] (some ⟨.str "2", .str "admin"⟩)).user =
          some p ∧ JSVal.strictEq p.role (.str "admin") = true) :=
  ⟨sample_schema_role_is_truthy,
   ⟨rfl,
    ((role_change_needs_admin Sample.env
        (Sample.request "5" [("role", .str "admin")] (some ⟨.str "5", .str "user"⟩))
        sample_schema_role_is_truthy).1
        [("id", .str "5")] [("role", .str "admin")] ⟨.str "5", .str "user"⟩
        rfl rfl rfl rfl rfl).2.1,
    ((role_change_needs_admin Sample.env
        (Sample.request "5" [("role", .str "admin")] (some ⟨.str "5", .str "user"⟩))
        sample_schema_role_is_truthy).1
        [("id", .str "5")] [("role", .str "admin")] ⟨.str "5", .str "user"⟩
        rfl rfl rfl rfl rfl).2.2 rfl⟩,
   ⟨by decide,
    (role_change_needs_admin Sample.env
      (Sample.request "5" [("role", .str "admin")] (some ⟨.str "2", .str "admin"⟩))
      sample_schema_role_is_truthy).2
      (.str "5") [("role", .str "admin")] (by decide) rfl⟩⟩

end Acquisitions
